import Mathlib

/-!
Verification development for the record-parsing core of SqliteFind
(`sqlitetools.py`).  The Python 2 source is shallowly embedded: byte buffers
become `List Nat` (each entry the value `ord` would return), Python's
unbounded integers become `Int`/`Nat`, and every `raise` site becomes a
distinct constructor of the error type `Err`, so that which exception a run
produces is visible in the result.

Python 2 semantics embedded here:
 * `/` on two ints is floor division (`Int.fdiv`);
 * `%` and `& (2^k - 1)` on a possibly-negative int agree with `Int.emod`
   by a nonnegative power of two;
 * `s[i]` on a string raises `IndexError` when `i` is out of range and wraps
   around for `-len(s) <= i < 0` (`pyIndex`);
 * `s[a:b]` clamps both bounds and never raises (`pySlice`).
-/

/-- Outcome tags for the embedded code.  One constructor per distinct raise
site of the source: the first eleven correspond to the `SqliteParseError`
raise statements (each with its own message string), the next five are the
other Python exceptions the source can raise (`IndexError` from out-of-range
string indexing, `NameError` from the undefined name `expected_type` on
line 110, `AssertionError` from `assert n > 0`, `NotImplementedError`,
`ValueError`).  `loopFuel` is an artifact of the fuel-based embedding of the
serial-type `while` loop and is unreachable (see `pstAux_no_fuel`). -/
inductive Err where
  | bufferExhausted
  | missingMarker
  | headerTooShort
  | headerTooLong
  | headerTooShortForCols
  | headerLengthMismatch
  | columnCountMismatch
  | reservedSerialType
  | columnOverrun
  | payloadLengthMismatch
  | malformedVarint
  | indexError
  | nameError
  | assertionError
  | notImplementedError
  | valueError
  | loopFuel
  deriving DecidableEq, Repr

/-- Which error outcomes correspond to the single documented exception class
`SqliteParseError` of the source (as opposed to other Python exceptions or
the embedding's fuel marker). -/
def Err.isSqliteParseError : Err → Bool
  | .bufferExhausted | .missingMarker | .headerTooShort | .headerTooLong
  | .headerTooShortForCols | .headerLengthMismatch | .columnCountMismatch
  | .reservedSerialType | .columnOverrun | .payloadLengthMismatch
  | .malformedVarint => true
  | _ => false

/-- Column values produced by `parse_column`.  The source returns Python
`None`, ints, a float unpacked from 8 big-endian bytes, or a slice of the
buffer (for both the blob and the text branches, which return the same kind
of value).  The float is kept as its 8 raw bytes, which determine it. -/
inductive Value where
  | null
  | int (i : Int)
  | float (bytes : List Nat)
  | bytes (bs : List Nat)
  deriving DecidableEq, Repr

/-- Elements of a `type_sets` entry: an integer serial type, or the symbolic
member `"string"` or `"blob"` (a Python int never equals a Python str, so a
tagged sum is a faithful model of the mixed-type set). -/
inductive TS where
  | int (n : Int)
  | string
  | blob
  deriving DecidableEq, Repr

/-- Python 2 string indexing `ord(buf[i])`: wraps for `-len <= i < 0`,
raises `IndexError` outside `[-len, len)`. -/
def pyIndex (buf : List Nat) (i : Int) : Except Err Nat :=
  if 0 ≤ i ∧ i < (buf.length : Int) then .ok (buf.getD i.toNat 0)
  else if -(buf.length : Int) ≤ i ∧ i < 0 then
    .ok (buf.getD ((buf.length : Int) + i).toNat 0)
  else .error .indexError

/-- Python slicing `buf[a:b]`: each bound is clamped to `[0, len]` after
adding `len` to a negative bound; the result never raises. -/
def pySlice (buf : List Nat) (a b : Int) : List Nat :=
  let L : Int := buf.length
  let na : Nat := (if a < 0 then max 0 (L + a) else min a L).toNat
  let nb : Nat := (if b < 0 then max 0 (L + b) else min b L).toNat
  (buf.drop na).take (nb - na)

/-- Embedding of `twos_comp(uint, n_bits)`.  On Python's unbounded ints,
`~(uint - 1) = -uint` and `x & ((1 << n) - 1)` is `x mod 2^n` (nonnegative),
so the negative branch is `-((-uint) mod 2^n)`.  (For `n_bits = 0` the
Python `>>` of `-1` would raise; that corner is unreachable from the
parsing entry points studied here and `Nat` subtraction is used.) -/
def twos_comp (uint : Nat) (n_bits : Nat) : Int :=
  if uint >>> (n_bits - 1) ≠ 0 then
    -((-(uint : Int)) % ((1 <<< n_bits : Nat) : Int))
  else (uint : Int)

/-- Accumulator of `parse_twos_comp_bytes`: the source iterates
`enumerate(buf[::-1])` and adds `ord(byte) * i**256` for each position `i`
(note: `i**256`, exactly as written in the source, not `256**i`). -/
def ptcbNum : List Nat → Nat → Nat
  | [], _ => 0
  | b :: rest, i => b * i ^ 256 + ptcbNum rest (i + 1)

/-- Embedding of `parse_twos_comp_bytes(buf, n_bits=None)`. -/
def parse_twos_comp_bytes (buf : List Nat) (n_bits : Option Nat) : Int :=
  let nb := match n_bits with
    | none => buf.length * 8
    | some n => n
  twos_comp (ptcbNum buf.reverse 0) nb

/-- Loop body of `parse_varint`: `for i in range(9)`, embedded with fuel
`9 - i` (the fuel-0 arm is unreachable from `parse_varint`, which starts at
`fuel = 9, i = 0`, because the `i = 8` iteration always returns).  For
`i < 8` the bit loop appends the low 7 bits of the byte (`byte % 128`); for
`i = 8` it appends 9 bits, `range(8, -1, -1)`, i.e. `byte % 512` — exactly
as the source does, which is one bit more than the 8 its comment announces. -/
def pvAux (buf : List Nat) (start : Nat) : Nat → Nat → Nat → Except Err (Nat × Nat)
  | 0, i, x => .ok (x, i)
  | fuel + 1, i, x =>
    if start + i ≥ buf.length then .error .bufferExhausted
    else
      let byte := buf.getD (start + i) 0
      if i = 8 then .ok (x * 512 + byte % 512, 9)
      else
        let x' := x * 128 + byte % 128
        if byte &&& 0x80 ≠ 0x80 then .ok (x', i + 1)
        else pvAux buf start fuel (i + 1) x'

/-- Embedding of `parse_varint(buf, start)`: returns the accumulated bit
string as an integer passed through `twos_comp(x, 64)`, and the number of
bytes consumed `i + 1`. -/
def parse_varint (buf : List Nat) (start : Nat) : Except Err (Int × Nat) :=
  match pvAux buf start 9 0 0 with
  | .error e => .error e
  | .ok (x, n) => .ok (twos_comp x 64, n)

/-- Number of binary digits of `n`, i.e. `len(bin(n)[2:])` for `n ≥ 0`
(`bin(0)[2:] = "0"` has length 1).  Structural fuel of 64 suffices for every
value that reaches this function (they are below `2^63`). -/
def bitLenAux : Nat → Nat → Nat
  | _, 0 => 0
  | 0, _ => 0
  | fuel + 1, n => 1 + bitLenAux fuel (n / 2)

/-- Length of `bin(n)[2:]` for a nonnegative Python int. -/
def bitLen (n : Nat) : Nat := if n = 0 then 1 else bitLenAux 64 n

/-- Embedding of `encode_twos_comp_bits(i, n_bits)`.  The source returns the
bit string `bin(i)[2:]`; since `bin` emits no leading zeros, that string is
determined by (and here represented as) its integer value together with its
length.  Negative `i` raises `NotImplementedError`; `i ≥ 1 << (n_bits - 1)`
raises `ValueError`. -/
def encode_twos_comp_bits (i : Int) (n_bits : Nat) : Except Err (Nat × Nat) :=
  if i < 0 then .error .notImplementedError
  else if i ≥ ((1 <<< (n_bits - 1) : Nat) : Int) then .error .valueError
  else .ok (i.toNat, bitLen i.toNat)

/-- Embedding of `encode_varint(i)`: raises `NotImplementedError` when the
bit string is longer than 7 bits, else returns the single byte
`chr(int('0' + i_bits, 2))`, whose value is the value of the bit string. -/
def encode_varint (i : Int) : Except Err (List Nat) :=
  match encode_twos_comp_bits i 64 with
  | .error e => .error e
  | .ok (v, len) => if len > 7 then .error .notImplementedError else .ok [v]

/-- Embedding of the local `len_check(l)` of `parse_column`: raises when
`l > len(buf) - start` (an `Int` comparison — `start` may exceed the length
or be negative, and `l` may be negative for small or negative serial types). -/
def len_check (buf : List Nat) (start l : Int) : Except Err Unit :=
  if l > (buf.length : Int) - start then .error .columnOverrun else .ok ()

/-- Embedding of `parse_column(serial_type, buf, start)`.  Dispatch follows
the source's `if`/`elif` chain literally; for the two variable-width
branches the width is `(serial_type - 13) / 2` with Python 2 floor division
(the source computes `- 13` in the even/blob branch as well, despite its
comment saying `(N-12)/2`). -/
def parse_column (serial_type : Int) (buf : List Nat) (start : Int) :
    Except Err (Value × Int) :=
  if serial_type = 0 then .ok (.null, 0)
  else if serial_type = 1 then
    match len_check buf start 1 with
    | .error e => .error e
    | .ok _ => .ok (.int (parse_twos_comp_bytes (pySlice buf start (start + 1)) none), 1)
  else if serial_type = 2 then
    match len_check buf start 2 with
    | .error e => .error e
    | .ok _ => .ok (.int (parse_twos_comp_bytes (pySlice buf start (start + 2)) none), 2)
  else if serial_type = 3 then
    match len_check buf start 3 with
    | .error e => .error e
    | .ok _ => .ok (.int (parse_twos_comp_bytes (pySlice buf start (start + 3)) none), 3)
  else if serial_type = 4 then
    match len_check buf start 4 with
    | .error e => .error e
    | .ok _ => .ok (.int (parse_twos_comp_bytes (pySlice buf start (start + 4)) none), 4)
  else if serial_type = 5 then
    match len_check buf start 6 with
    | .error e => .error e
    | .ok _ => .ok (.int (parse_twos_comp_bytes (pySlice buf start (start + 6)) none), 6)
  else if serial_type = 6 then
    match len_check buf start 8 with
    | .error e => .error e
    | .ok _ => .ok (.int (parse_twos_comp_bytes (pySlice buf start (start + 8)) none), 8)
  else if serial_type = 7 then
    match len_check buf start 8 with
    | .error e => .error e
    | .ok _ => .ok (.float (pySlice buf start (start + 8)), 8)
  else if serial_type = 8 then .ok (.int 0, 0)
  else if serial_type = 9 then .ok (.int 1, 0)
  else if serial_type = 10 ∨ serial_type = 11 then .error .reservedSerialType
  else if serial_type % 2 = 0 then
    let l := (serial_type - 13).fdiv 2
    match len_check buf start l with
    | .error e => .error e
    | .ok _ => .ok (.bytes (pySlice buf start (start + l)), l)
  else
    let l := (serial_type - 13).fdiv 2
    match len_check buf start l with
    | .error e => .error e
    | .ok _ => .ok (.bytes (pySlice buf start (start + l)), l)

/-- Inner loop of `count_varints`: `for j in range(8)`, embedded with fuel
`8 - j`; returns the final `pos` together with the last value taken by `j`
(when all 8 iterations run without a `break`, `j` retains the value 7 in
Python, hence the `j - 1` in the fuel-0 arm, reached only with `j = 8`). -/
def cvInner (buf : List Nat) : Nat → Int → Nat → Except Err (Int × Nat)
  | 0, pos, j => .ok (pos, j - 1)
  | fuel + 1, pos, j =>
    match pyIndex buf (pos - 1) with
    | .error e => .error e
    | .ok byte =>
      if byte &&& 0x80 ≠ 0x80 then .ok (pos, j)
      else cvInner buf fuel (pos - 1) (j + 1)

/-- Outer loop of `count_varints`: `for i in range(n)` walking back one
varint per iteration.  A varint whose last byte has bit `0x80` set is
required to satisfy `j + 1 == 9`, which no run of the inner loop can
produce (`j` is at most 7), so the `MalformedVarint` raise fires for every
high-bit-terminated varint. -/
def cvOuter (buf : List Nat) : Int → Nat → Except Err Int
  | pos, 0 => .ok pos
  | pos, n + 1 =>
    let pos1 := pos - 1
    match pyIndex buf pos1 with
    | .error e => .error e
    | .ok byte =>
      let nine_byte : Bool := byte &&& 0x80 ≠ 0
      match cvInner buf 8 pos1 0 with
      | .error e => .error e
      | .ok (pos2, j) =>
        if nine_byte ∧ j + 1 ≠ 9 then .error .malformedVarint
        else cvOuter buf pos2 n

/-- Embedding of `count_varints(buf, start, n, backward)`: `assert n > 0`
raises `AssertionError` for `n = 0`; only backward scanning is implemented. -/
def count_varints (buf : List Nat) (start : Int) (n : Nat) (backward : Bool) :
    Except Err Int :=
  if n = 0 then .error .assertionError
  else if ¬backward then .error .notImplementedError
  else cvOuter buf start n

/-- Serial-type `while` loop of `parse_record`: decode varints while
`i < stop`, accumulating the decoded serial types and returning the final
offset.  Embedded with structural fuel; `stop - i` units suffice because
every varint consumes at least one byte (`pstAux_no_fuel` below), so the
`loopFuel` arm is unreachable from `parse_header`. -/
def pstAux (buf : List Nat) (stop : Nat) : Nat → Nat → Except Err (List Int × Nat)
  | fuel, i =>
    if i < stop then
      match fuel with
      | 0 => .error .loopFuel
      | fuel' + 1 =>
        match parse_varint buf i with
        | .error e => .error e
        | .ok (stype, l) =>
          match pstAux buf stop fuel' (i + l) with
          | .error e => .error e
          | .ok (sts, iF) => .ok (stype :: sts, iF)
    else .ok ([], i)

/-- Steps 1–7 of `parse_record` (marker byte, three varints, header-length
checks, serial-type list, exact-landing check, column-count check).
Returns `(payload_len, header_start, serial_types, i)`.  Note the marker
check is embedded exactly as written in the source: it raises when the byte
at `start` EQUALS `0x0d`. -/
def parse_header (buf : List Nat) (start : Nat) (n_cols : Option Nat) :
    Except Err (Int × Nat × List Int × Nat) :=
  match pyIndex buf (start : Int) with
  | .error e => .error e
  | .ok b =>
    if b = 0x0d then .error .missingMarker
    else
      match parse_varint buf (start + 1) with
      | .error e => .error e
      | .ok (payload_len, l1) =>
        match parse_varint buf (start + 1 + l1) with
        | .error e => .error e
        | .ok (_row_id, l2) =>
          let header_start := start + 1 + l1 + l2
          match parse_varint buf header_start with
          | .error e => .error e
          | .ok (header_len, l3) =>
            if header_len < 2 then .error .headerTooShort
            else
              let colsCheck : Except Err Unit :=
                match n_cols with
                | none => .ok ()
                | some nc =>
                  if header_len > ((9 * (1 + nc) : Nat) : Int) then .error .headerTooLong
                  else if header_len < ((1 * (1 + nc) : Nat) : Int) then
                    .error .headerTooShortForCols
                  else .ok ()
              match colsCheck with
              | .error e => .error e
              | .ok _ =>
                let stop := header_start + header_len.toNat
                match pstAux buf stop (stop - (header_start + l3)) (header_start + l3) with
                | .error e => .error e
                | .ok (serial_types, i) =>
                  if (i : Int) ≠ (header_start : Int) + header_len then
                    .error .headerLengthMismatch
                  else
                    match n_cols with
                    | some nc =>
                      if serial_types.length ≠ nc then .error .columnCountMismatch
                      else .ok (payload_len, header_start, serial_types, i)
                    | none => .ok (payload_len, header_start, serial_types, i)

/-- Type-set check of `parse_record`, iterating `zip(serial_types,
type_sets)` (the iteration stops as soon as either list is exhausted).  The
source's conditions are embedded literally: the `"string"` branch demands an
EVEN serial type `≥ 13` and the `"blob"` branch an ODD one `≥ 12`; and the
raise statement references the undefined name `expected_type`, so a failed
membership test raises `NameError`, not `SqliteParseError`. -/
def check_type_sets : List Int → List (Option (List TS)) → Except Err Unit
  | st :: sts, ots :: otss =>
    match ots with
    | none => check_type_sets sts otss
    | some ts =>
      if TS.string ∈ ts ∧ st ≥ 13 ∧ st % 2 = 0 then check_type_sets sts otss
      else if TS.blob ∈ ts ∧ st ≥ 12 ∧ st % 2 = 1 then check_type_sets sts otss
      else if TS.int st ∉ ts then .error .nameError
      else check_type_sets sts otss
  | _, _ => .ok ()

/-- Column loop of `parse_record`: decode each serial type in order,
advancing the offset by the returned width (which can be negative for the
buggy variable-width branches). -/
def parse_columns (buf : List Nat) : List Int → Int → Except Err (List Value × Int)
  | [], i => .ok ([], i)
  | st :: sts, i =>
    match parse_column st buf i with
    | .error e => .error e
    | .ok (v, l) =>
      match parse_columns buf sts (i + l) with
      | .error e => .error e
      | .ok (vs, iF) => .ok (v :: vs, iF)

/-- Everything in `parse_record` before the final payload-length check:
header parsing, type-set checking, and column decoding.  Returns
`(serial_types, values, final offset, header_start, payload_len)`. -/
def parse_record_pre (buf : List Nat) (start : Nat) (n_cols : Option Nat)
    (type_sets : Option (List (Option (List TS)))) :
    Except Err (List Int × List Value × Int × Nat × Int) :=
  match parse_header buf start n_cols with
  | .error e => .error e
  | .ok (payload_len, header_start, serial_types, i) =>
    let tsCheck : Except Err Unit :=
      match type_sets with
      | none => .ok ()
      | some tss => check_type_sets serial_types tss
    match tsCheck with
    | .error e => .error e
    | .ok _ =>
      match parse_columns buf serial_types (i : Int) with
      | .error e => .error e
      | .ok (values, iF) => .ok (serial_types, values, iF, header_start, payload_len)

/-- Embedding of `parse_record(buf, start, n_cols, type_sets)`: run all
prior steps, then check `i - header_start == payload_len` and return the
serial types together with the values. -/
def parse_record (buf : List Nat) (start : Nat) (n_cols : Option Nat)
    (type_sets : Option (List (Option (List TS)))) :
    Except Err (List Int × List Value) :=
  match parse_record_pre buf start n_cols type_sets with
  | .error e => .error e
  | .ok (serial_types, values, i, header_start, payload_len) =>
    if (i - (header_start : Int)) ≠ payload_len then .error .payloadLengthMismatch
    else .ok (serial_types, values)

deriving instance DecidableEq for Except

/-- The varint loop body never produces the embedding's fuel marker: its only
error is `bufferExhausted`, as in the source. -/
theorem pvAux_ne_loopFuel (buf : List Nat) (start : Nat) :
    ∀ fuel i x, pvAux buf start fuel i x ≠ .error .loopFuel := by
  intro fuel
  induction fuel with
  | zero => intro i x; simp [pvAux]
  | succ fuel ih =>
    intro i x
    simp only [pvAux]
    split
    · simp
    · split
      · simp
      · split
        · simp
        · exact ih (i + 1) _

/-- Varint decoding never produces the embedding's fuel marker. -/
theorem parse_varint_ne_loopFuel (buf : List Nat) (start : Nat) :
    parse_varint buf start ≠ .error .loopFuel := by
  unfold parse_varint
  cases hp : pvAux buf start 9 0 0 with
  | error e =>
    intro hc
    injection hc with he
    exact pvAux_ne_loopFuel buf start 9 0 0 (he ▸ hp)
  | ok p => simp

/-- Width invariant of the varint loop: under the loop invariant
`fuel + i = 9`, a successful run consumes between 1 and 9 bytes. -/
theorem pvAux_width (buf : List Nat) (start : Nat) :
    ∀ fuel i x v n, fuel + i = 9 → pvAux buf start fuel i x = .ok (v, n) →
      1 ≤ n ∧ n ≤ 9 := by
  intro fuel
  induction fuel with
  | zero =>
    intro i x v n hfi h
    simp only [pvAux, Except.ok.injEq, Prod.mk.injEq] at h
    omega
  | succ fuel ih =>
    intro i x v n hfi h
    simp only [pvAux] at h
    split at h
    · exact absurd h (by simp)
    · split at h
      · simp only [Except.ok.injEq, Prod.mk.injEq] at h
        omega
      · split at h
        · simp only [Except.ok.injEq, Prod.mk.injEq] at h
          omega
        · exact ih (i + 1) _ v n (by omega) h

/-- A successfully decoded varint consumes between 1 and 9 bytes. -/
theorem parse_varint_width (buf : List Nat) (start : Nat) (v : Int) (n : Nat)
    (h : parse_varint buf start = .ok (v, n)) : 1 ≤ n ∧ n ≤ 9 := by
  unfold parse_varint at h
  cases hp : pvAux buf start 9 0 0 with
  | error e => rw [hp] at h; exact absurd h (by simp)
  | ok p =>
    obtain ⟨x, m⟩ := p
    rw [hp] at h
    simp only [Except.ok.injEq, Prod.mk.injEq] at h
    have hw := pvAux_width buf start 9 0 0 x m (by omega) hp
    omega

/-- Fuel sufficiency for the serial-type loop: with at least `stop - i` units
of fuel the `loopFuel` arm is never taken, because every varint consumes at
least one byte.  `parse_header` calls `pstAux` with exactly this much fuel,
so the embedding's fuel marker is unreachable from the parser. -/
theorem pstAux_no_fuel (buf : List Nat) (stop : Nat) :
    ∀ fuel i, stop ≤ i + fuel → pstAux buf stop fuel i ≠ .error .loopFuel := by
  intro fuel
  induction fuel with
  | zero =>
    intro i hle
    simp only [pstAux]
    rw [if_neg (by omega : ¬ i < stop)]
    simp
  | succ fuel ih =>
    intro i hle
    simp only [pstAux]
    split
    · intro hc
      split at hc
      · rename_i e heq
        injection hc with he
        exact parse_varint_ne_loopFuel buf i (by rw [heq, he])
      · rename_i stype l heq
        split at hc
        · rename_i e heq2
          injection hc with he
          have hl := (parse_varint_width buf i stype l heq).1
          exact ih (i + l) (by omega) (by rw [heq2, he])
        · simp at hc
    · simp

/-- Truncating `type_sets` to the number of columns does not change the
outcome of the type-set check: the source iterates `zip(serial_types,
type_sets)`, which stops at the shorter list. -/
theorem check_type_sets_take (sts : List Int) :
    ∀ tss, check_type_sets sts (tss.take sts.length) = check_type_sets sts tss := by
  induction sts with
  | nil => intro tss; cases tss <;> rfl
  | cons st sts ih =>
    intro tss
    cases tss with
    | nil => rfl
    | cons ots tss =>
      cases ots with
      | none =>
        simp only [List.length_cons, List.take_succ_cons, check_type_sets]
        exact ih tss
      | some ts =>
        simp only [List.length_cons, List.take_succ_cons, check_type_sets]
        split
        · exact ih tss
        · split
          · exact ih tss
          · split
            · rfl
            · exact ih tss

/-- Byte-level round trip behind the varint codec theorem: every byte value
below `2^7` encodes to itself in one byte and decodes back. -/
theorem varint_roundtrip_bytes :
    ∀ n : Nat, n < 128 →
      encode_varint (n : Int) = .ok [n] ∧ parse_varint [n] 0 = .ok ((n : Int), 1) := by
  decide

/-- C1: The claim states that `parse_record` proceeds past step 1 when the
byte at `start` equals the leaf-cell marker `0x0d` and fails with the
marker error exactly when it does not.  The source's condition is inverted
(`if ord(buf[i]) == 0x0d: raise`): on a buffer whose first byte IS `0x0d`
the parse fails with the marker error, while on an otherwise identical
buffer whose first byte is `0x00` (not the marker) the parse runs to a
successful record. -/
theorem marker_check_inverted :
    parse_record [0x0d, 0x03, 0x00, 0x02, 0x01, 0x00] 0 none none =
      .error .missingMarker ∧
    parse_record [0x00, 0x03, 0x00, 0x02, 0x01, 0x00] 0 none none =
      .ok ([1], [Value.int 0]) :=
  ⟨rfl, rfl⟩

/-- C2 (counterexample): the claim that `encode` succeeds for every 64-bit
signed integer is false: `encode_varint` raises `NotImplementedError` for
`128` (more than 7 bits) and for `-1` (negative, via
`encode_twos_comp_bits`). -/
theorem encode_varint_not_total :
    encode_varint 128 = .error .notImplementedError ∧
    encode_varint (-1) = .error .notImplementedError :=
  ⟨rfl, rfl⟩

/-- C2 (amended): on the domain the encoder actually supports — integers
`v` with `0 ≤ v < 128` — `encode_varint` succeeds, producing the single
byte `v`, and `parse_varint` decodes it back as `(v, 1)`; one byte is the
minimal width under the 7-bits-per-byte scheme. -/
theorem varint_roundtrip_small (v : Int) (h0 : 0 ≤ v) (h1 : v < 128) :
    encode_varint v = .ok [v.toNat] ∧ parse_varint [v.toNat] 0 = .ok (v, 1) := by
  have hb : v.toNat < 128 := by omega
  have hv : (v.toNat : Int) = v := Int.toNat_of_nonneg h0
  have h := varint_roundtrip_bytes v.toNat hb
  rwa [hv] at h

/-- C2 (witness): the round trip at `v = 42`. -/
theorem varint_roundtrip_small_witness :
    encode_varint 42 = .ok [(42 : Int).toNat] ∧
    parse_varint [(42 : Int).toNat] 0 = .ok (42, 1) :=
  varint_roundtrip_small 42 (by decide) (by decide)

/-- C3: The claim states that fixed-width integer serial types decode the
big-endian byte span as two's complement, so a serial-type-1 column with
data byte `0x2A` yields `42`.  The source instead computes
`ord(byte) * i**256` (rather than `256**i`) in `parse_twos_comp_bytes`, so
the single byte `0x2A` contributes `0x2A * 0**256 = 0`: the column decodes
to `0`, and the full record decodes to value `0`, not `42`. -/
theorem int_column_decodes_to_zero :
    parse_twos_comp_bytes [0x2A] none = 0 ∧
    parse_column 1 [0x2A] 0 = .ok (Value.int 0, 1) ∧
    parse_record [0x00, 0x03, 0x00, 0x02, 0x01, 0x2A] 0 none none =
      .ok ([1], [Value.int 0]) :=
  ⟨rfl, rfl, rfl⟩

/-- C4: The claim states `typeConstraints = [{"string"}]` accepts serial
type 15 and rejects serial type 12 with `TypeConstraintViolation`.  In the
source the parity tests are swapped (`"string"` requires an even type
`≥ 13`, `"blob"` an odd type `≥ 12`) and the rejection raise references the
undefined name `expected_type`: a record with one serial-type-15 column is
REJECTED, and with `NameError` rather than `SqliteParseError`; a record
with one (even, blob-typed) serial-type-14 column is accepted under
`{"string"}`. -/
theorem type_set_parity_swapped :
    parse_record [0x00, 0x03, 0x00, 0x02, 0x0F, 0x41] 0 none
        (some [some [TS.string]]) = .error .nameError ∧
    parse_record [0x00, 0x02, 0x00, 0x02, 0x0E] 0 none
        (some [some [TS.string]]) = .ok ([14], [Value.bytes []]) :=
  ⟨rfl, rfl⟩

/-- C5: The claim states an even serial type `N ≥ 12` decodes to a blob of
`(N − 12)/2` bytes with that width.  The source computes
`(serial_type - 13) / 2` (Python 2 floor division) in the blob branch as
well: serial type 14 with one byte available returns the EMPTY blob with
width 0 (instead of the 1-byte blob with width 1), and serial type 12
returns width `-1`. -/
theorem blob_width_uses_13 :
    parse_column 14 [0xAB] 0 = .ok (Value.bytes [], 0) ∧
    parse_column 12 [0xAB] 0 = .ok (Value.bytes [], -1) :=
  ⟨rfl, rfl⟩

/-- C6: The claim states the decoded value is the accumulated bit string of
the low 7 bits of each of the first up to 8 bytes plus all 8 bits of a 9th
byte.  The source's bit loop runs `range(8, -1, -1)` for the 9th byte,
appending 9 bits, so the first 56 bits are shifted left by 9 rather than 8:
on the 9-byte varint `81 80 80 80 80 80 80 80 00` it returns `2^58`
(288230376151711744) where the claimed scheme yields `2^57`. -/
theorem varint_ninth_byte_nine_bits :
    parse_varint [0x81, 0x80, 0x80, 0x80, 0x80, 0x80, 0x80, 0x80, 0x00] 0 =
      .ok (288230376151711744, 9) ∧
    (288230376151711744 : Int) = 2 ^ 58 ∧ (144115188075855872 : Int) = 2 ^ 57 :=
  ⟨rfl, by norm_num, by norm_num⟩

/-- C7: The claim states `parse_record` either returns a record or fails
with the single typed parse-error kind for every buffer and start offset.
On the empty buffer at offset 0 the source evaluates `ord(buf[start])`
without a bounds check and raises `IndexError`, which is not the
`SqliteParseError` kind (the undefined-name `NameError` of the type-set
check, shown in `type_set_parity_swapped`, is a second such escape). -/
theorem parse_record_raises_index_error :
    parse_record [] 0 none none = .error .indexError ∧
    Err.isSqliteParseError .indexError = false :=
  ⟨rfl, rfl⟩

/-- C8: With all earlier steps successful (`parse_record_pre` returning the
serial types, values, final offset `i`, header start and declared payload
length), `parse_record` returns a record exactly when
`i - header_start = payload_len`, and otherwise fails with the
payload-length-mismatch error. -/
theorem payload_length_check (buf : List Nat) (start : Nat) (n_cols : Option Nat)
    (type_sets : Option (List (Option (List TS))))
    (sts : List Int) (vals : List Value) (i : Int) (hs : Nat) (pl : Int)
    (h : parse_record_pre buf start n_cols type_sets = .ok (sts, vals, i, hs, pl)) :
    ((∃ r, parse_record buf start n_cols type_sets = .ok r) ↔ i - (hs : Int) = pl) ∧
    (i - (hs : Int) ≠ pl →
      parse_record buf start n_cols type_sets = .error .payloadLengthMismatch) := by
  unfold parse_record
  rw [h]
  by_cases hc : i - (hs : Int) = pl
  · simp [hc]
  · simp [hc]

/-- C8 (witness): on the record `00 03 00 02 01 00`, all earlier steps
succeed with final offset 6, header start 3 and payload length 3, and the
cross-check `6 - 3 = 3` holds, so the parse returns a record. -/
theorem payload_length_check_witness :
    parse_record_pre [0x00, 0x03, 0x00, 0x02, 0x01, 0x00] 0 none none =
      .ok ([1], [Value.int 0], 6, 3, 3) ∧
    (((∃ r, parse_record [0x00, 0x03, 0x00, 0x02, 0x01, 0x00] 0 none none = .ok r) ↔
        (6 : Int) - ((3 : Nat) : Int) = 3) ∧
      ((6 : Int) - ((3 : Nat) : Int) ≠ 3 →
        parse_record [0x00, 0x03, 0x00, 0x02, 0x01, 0x00] 0 none none =
          .error .payloadLengthMismatch)) :=
  ⟨rfl, payload_length_check _ _ _ _ _ _ _ _ _ rfl⟩

/-- C9: The claim states that walking backward over a varint whose last
byte has the high bit set fails with `MalformedVarint` exactly when the
varint does not span 9 bytes, so a valid 9-byte varint (8 continuation
bytes followed by a high-bit last byte) should succeed.  In the source the
inner loop's counter `j` never exceeds 7, so `j + 1 != 9` always holds and
EVERY high-bit-terminated varint — including this valid 9-byte one, whose
start position 0 the claim says is returned — raises `MalformedVarint`. -/
theorem backward_scan_rejects_nine_byte_varint :
    count_varints [0x80, 0x80, 0x80, 0x80, 0x80, 0x80, 0x80, 0x80, 0xFF] 9 1 true =
      .error .malformedVarint :=
  rfl

/-- C10: When the header stage decodes the serial types `sts` and
`type_sets` is strictly longer than the column count, the extra entries are
ignored: the parse result equals the parse with `type_sets` truncated to
the column count (the source iterates `zip(serial_types, type_sets)`). -/
theorem type_sets_extra_ignored (buf : List Nat) (start : Nat) (n_cols : Option Nat)
    (pl : Int) (hs : Nat) (sts : List Int) (i : Nat)
    (tss : List (Option (List TS)))
    (h : parse_header buf start n_cols = .ok (pl, hs, sts, i))
    (_hlen : sts.length < tss.length) :
    parse_record buf start n_cols (some tss) =
      parse_record buf start n_cols (some (tss.take sts.length)) := by
  unfold parse_record parse_record_pre
  rw [h]
  dsimp only
  rw [check_type_sets_take]

/-- C10 (witness): on the record `00 03 00 02 01 00` (one column) with the
two-entry constraint list `[none, none]`, the parse equals the parse with
the list truncated to one entry. -/
theorem type_sets_extra_ignored_witness :
    parse_header [0x00, 0x03, 0x00, 0x02, 0x01, 0x00] 0 none = .ok (3, 3, [1], 5) ∧
    parse_record [0x00, 0x03, 0x00, 0x02, 0x01, 0x00] 0 none (some [none, none]) =
      parse_record [0x00, 0x03, 0x00, 0x02, 0x01, 0x00] 0 none
        (some (([none, none] : List (Option (List TS))).take ([(1 : Int)].length))) :=
  ⟨rfl, type_sets_extra_ignored _ _ _ _ _ _ _ _ rfl (by decide)⟩
